import Mathlib

/-!
Verification development for the taskbar-auto-fullscreen Windhawk mod
(src/mods/taskbar-auto-fullscreen.wh.cpp).

Shallow embedding: window handles (HWND) and monitor handles (HMONITOR) are
natural numbers, with 0 playing the role of the null pointer, mirroring the
truthiness tests of the C++ source. OS queries whose results the code consumes
(visibility, styles, window rectangles, monitor info, monitor-from-point) are
packaged in a WinEnv record of query results; fallible queries return Option.
The mutable globals of the mod are packaged in records and threaded
explicitly.
-/

namespace TaskbarAutoFullscreen

/-- The WS_VISIBLE window style bit (0x10000000), as tested by
GetWindowLong(hWnd, GWL_STYLE) and WS_VISIBLE in the source. -/
def WS_VISIBLE : Nat := 0x10000000

/-- The MONITOR_DEFAULTTONEAREST flag value passed to MonitorFromPoint. -/
def MONITOR_DEFAULTTONEAREST : Nat := 2

/-- The MONITOR_DEFAULTTOPRIMARY flag value passed to MonitorFromPoint. -/
def MONITOR_DEFAULTTOPRIMARY : Nat := 1

/-- A Windows RECT: left, top, right, bottom coordinates. -/
structure Rect where
  left : Int
  top : Int
  right : Int
  bottom : Int
  deriving DecidableEq, Repr

/-- The monitor information the code consumes: MONITORINFO carries rcMonitor
(full monitor bounds) and rcWork (work area); MONITORINFOEX additionally lets
the code test the MONITORINFOF_PRIMARY bit of dwFlags, modelled as the
Boolean field primaryFlag. -/
structure MonitorInfo where
  rcMonitor : Rect
  rcWork : Rect
  primaryFlag : Bool
  deriving DecidableEq, Repr

/-- One fixed set of OS query results, as consumed by the mod. HWND and
HMONITOR values are Nat, 0 meaning null. getWindowRect and getMonitorInfo
return none when the corresponding query fails (returns FALSE).
monitorFromPointOriginal is the unhooked MonitorFromPoint, taking the point
coordinates and the default-flag value. -/
structure WinEnv where
  isWindowVisible : Nat → Bool
  desktopWindow : Nat
  shellWindow : Nat
  windowStyle : Nat → Nat
  getWindowRect : Nat → Option Rect
  monitorFromPointOriginal : Int → Int → Nat → Nat
  getMonitorInfo : Nat → Option MonitorInfo

/-- The process-wide globals read by the hooks and the classifier:
g_forceSecondary, g_unloading, g_primaryMonitor, g_secondaryMonitor,
g_taskbarHwnd (0 meaning null handle). -/
structure Globals where
  forceSecondary : Bool
  unloading : Bool
  primaryMonitor : Nat
  secondaryMonitor : Nat
  taskbarHwnd : Nat
  deriving DecidableEq, Repr

/-- Embedding of IsWindowFullscreen (source lines 240-272): rejects a null or
invisible window, the desktop, shell and taskbar windows, a window without the
WS_VISIBLE style bit; resolves the monitor nearest the top-left corner of the
window rectangle through the unhooked MonitorFromPoint and rejects if it is
not the primary monitor; finally compares the window rectangle dimensions
against the rcMonitor dimensions with a 10-pixel tolerance. Failed queries
yield false. -/
def IsWindowFullscreen (env : WinEnv) (g : Globals) (hWnd : Nat) : Bool :=
  if hWnd = 0 ∨ env.isWindowVisible hWnd = false then false
  else if hWnd = env.desktopWindow ∨ hWnd = env.shellWindow ∨ hWnd = g.taskbarHwnd then false
  else if Nat.land (env.windowStyle hWnd) WS_VISIBLE = 0 then false
  else
    match env.getWindowRect hWnd with
    | none => false
    | some windowRect =>
      let hMonitor := env.monitorFromPointOriginal windowRect.left windowRect.top
        MONITOR_DEFAULTTONEAREST
      if hMonitor ≠ g.primaryMonitor then false
      else
        match env.getMonitorInfo hMonitor with
        | none => false
        | some mi =>
          let monitorWidth := mi.rcMonitor.right - mi.rcMonitor.left
          let monitorHeight := mi.rcMonitor.bottom - mi.rcMonitor.top
          let windowWidth := windowRect.right - windowRect.left
          let windowHeight := windowRect.bottom - windowRect.top
          decide (windowWidth ≥ monitorWidth - 10 ∧ windowHeight ≥ monitorHeight - 10)

/-- Embedding of MonitorFromPoint_Hook (source lines 200-205): at the origin
point, while forcing and with a known secondary monitor, returns the secondary
monitor; otherwise delegates to the unhooked MonitorFromPoint. -/
def MonitorFromPoint_Hook (env : WinEnv) (g : Globals) (x y : Int) (dwFlags : Nat) : Nat :=
  if x = 0 ∧ y = 0 ∧ g.forceSecondary = true ∧ g.secondaryMonitor ≠ 0 then
    g.secondaryMonitor
  else env.monitorFromPointOriginal x y dwFlags

/-- The substitution performed by the body of TrayUI__SetStuckMonitor_Hook
after its fast path (source lines 221-231): the secondary monitor when not
unloading, forcing, and the secondary is known; else the primary monitor when
not forcing and the primary is known; else the supplied monitor. -/
def substituteMonitor (g : Globals) (monitor : Nat) : Nat :=
  if g.unloading = false ∧ g.forceSecondary = true ∧ g.secondaryMonitor ≠ 0 then
    g.secondaryMonitor
  else if g.forceSecondary = false ∧ g.primaryMonitor ≠ 0 then
    g.primaryMonitor
  else monitor

/-- The null fallback after substitution (source lines 233-235) followed by
delegation: a null monitor is replaced by the monitor nearest the origin from
the unhooked MonitorFromPoint. -/
def TrayUI__SetStuckMonitor_FullTable (env : WinEnv) (g : Globals) (monitor : Nat) : Nat :=
  if substituteMonitor g monitor = 0 then
    env.monitorFromPointOriginal 0 0 MONITOR_DEFAULTTONEAREST
  else substituteMonitor g monitor

/-- Embedding of TrayUI__SetStuckMonitor_Hook (source lines 210-238),
returning the monitor value passed to the original TrayUI::_SetStuckMonitor.
The fast path (source lines 211-214) passes the supplied monitor through
unchanged when not forcing and unloading; otherwise the full decision table
runs. -/
def TrayUI__SetStuckMonitor_Hook (env : WinEnv) (g : Globals) (monitor : Nat) : Nat :=
  if g.forceSecondary = false ∧ g.unloading = true then monitor
  else TrayUI__SetStuckMonitor_FullTable env g monitor

/-- A monitor as seen during EnumDisplayMonitors: its handle and the result
of GetMonitorInfo on it (none when GetMonitorInfo fails). -/
structure MonitorDesc where
  handle : Nat
  getInfo : Option MonitorInfo
  deriving DecidableEq, Repr

/-- The recursion of the enumeration callback in GetMonitorByIndex (source
lines 143-159): monitors whose GetMonitorInfo fails are skipped without
counting; primary-flagged monitors are skipped; the monitor whose running
count equals the requested index is returned, stopping the enumeration. -/
def GetMonitorByIndexAux (index : Int) : List MonitorDesc → Int → Nat
  | [], _ => 0
  | m :: rest, currentIndex =>
    match m.getInfo with
    | none => GetMonitorByIndexAux index rest currentIndex
    | some mi =>
      if mi.primaryFlag = true then GetMonitorByIndexAux index rest currentIndex
      else if currentIndex = index then m.handle
      else GetMonitorByIndexAux index rest (currentIndex + 1)

/-- Embedding of GetMonitorByIndex (source lines 139-170) over the monitor
list produced by EnumDisplayMonitors, starting the running count at 0;
returns 0 (null) when no monitor matches. -/
def GetMonitorByIndex (monitors : List MonitorDesc) (index : Int) : Nat :=
  GetMonitorByIndexAux index monitors 0

/-- The inputs Wh_ModInit consumes: the enumerated monitor list, the monitor
MonitorFromPoint resolves for the origin with MONITOR_DEFAULTTOPRIMARY, and
whether symbol hooking and thread creation succeed. -/
structure InitEnv where
  monitors : List MonitorDesc
  monitorAtOriginPrimary : Nat
  hookOk : Bool
  threadOk : Bool
  deriving DecidableEq, Repr

/-- The observable outcome of Wh_ModInit: its BOOL return value, whether the
monitor thread was started, and the monitor globals it left behind. -/
structure InitResult where
  success : Bool
  threadStarted : Bool
  primaryMonitor : Nat
  secondaryMonitor : Nat
  deriving DecidableEq, Repr

/-- Embedding of RefreshMonitors (source lines 172-195): the primary is the
monitor at the origin with MONITOR_DEFAULTTOPRIMARY; the secondary is
GetMonitorByIndex at the configured index minus one. Returns the pair
(primary, secondary). -/
def RefreshMonitors (e : InitEnv) (secondaryMonitorSetting : Int) : Nat × Nat :=
  (e.monitorAtOriginPrimary, GetMonitorByIndex e.monitors (secondaryMonitorSetting - 1))

/-- Embedding of Wh_ModInit (source lines 378-420): refreshes the monitors;
fails without hooking or starting the thread when either monitor is null;
fails when symbol hooking fails; fails when thread creation fails (in which
case no thread runs). -/
def Wh_ModInit (e : InitEnv) (secondaryMonitorSetting : Int) : InitResult :=
  let pm := (RefreshMonitors e secondaryMonitorSetting).1
  let sm := (RefreshMonitors e secondaryMonitorSetting).2
  if pm = 0 ∨ sm = 0 then ⟨false, false, pm, sm⟩
  else if e.hookOk = false then ⟨false, false, pm, sm⟩
  else if e.threadOk = false then ⟨false, false, pm, sm⟩
  else ⟨true, true, pm, sm⟩

/-- The mutable state the monitor thread manipulates: g_fullscreenApp (0 for
null), g_forceSecondary, and the local lastCheckedWindow of
MonitorThreadFunc. -/
structure PollState where
  fullscreenApp : Nat
  forceSecondary : Bool
  lastCheckedWindow : Nat
  deriving DecidableEq, Repr

/-- The per-tick inputs of the monitor thread loop: the foreground window,
the IsWindow liveness query, and the OS query results the classifier reads on
this tick. -/
structure TickInput where
  foreground : Nat
  isWindow : Nat → Bool
  env : WinEnv

/-- The globals as seen by the classifier during a tick: the fixed
configuration plus the current forcing flag of the poll state. -/
def stateGlobals (cfg : Globals) (s : PollState) : Globals :=
  { cfg with forceSecondary := s.forceSecondary }

/-- The liveness check at the top of each tick (source lines 312-318): when a
tracked app exists and IsWindow fails on it, clear the tracked app, stop
forcing, and trigger one redisplay (ApplyTaskbarSettings). Returns the new
state and the number of redisplay triggers. -/
def livenessStep (s : PollState) (inp : TickInput) : PollState × Nat :=
  if s.fullscreenApp ≠ 0 ∧ inp.isWindow s.fullscreenApp = false then
    (⟨0, false, s.lastCheckedWindow⟩, 1)
  else (s, 0)

/-- The fullscreen entry check (source lines 325-338): when the foreground
window classifies as fullscreen and no app is tracked, track it, start
forcing, and trigger one redisplay. The lastCheckedWindow field is already
updated at this point. -/
def entryStep (cfg : Globals) (s : PollState) (inp : TickInput) : PollState × Nat :=
  if IsWindowFullscreen inp.env (stateGlobals cfg s) inp.foreground = true ∧
      s.fullscreenApp = 0 then
    (⟨inp.foreground, true, s.lastCheckedWindow⟩, 1)
  else (s, 0)

/-- One iteration of the while loop of MonitorThreadFunc (source lines
299-342): liveness check, then the change-detection gate (needsCheck) guards
the classification and entry transition; lastCheckedWindow is updated
unconditionally. Returns the new state and the number of redisplay triggers
in this tick. -/
def MonitorThreadTick (cfg : Globals) (s : PollState) (inp : TickInput) : PollState × Nat :=
  let sr := livenessStep s inp
  let needsCheck := inp.foreground ≠ sr.1.lastCheckedWindow
  let s2 : PollState := ⟨sr.1.fullscreenApp, sr.1.forceSecondary, inp.foreground⟩
  if needsCheck then
    let er := entryStep cfg s2 inp
    (er.1, sr.2 + er.2)
  else (s2, sr.2)

/-- The same tick with the change-detection gate removed: the classification
and entry transition run on every tick. -/
def MonitorThreadTickUngated (cfg : Globals) (s : PollState) (inp : TickInput) :
    PollState × Nat :=
  let sr := livenessStep s inp
  let s2 : PollState := ⟨sr.1.fullscreenApp, sr.1.forceSecondary, inp.foreground⟩
  let er := entryStep cfg s2 inp
  (er.1, sr.2 + er.2)

/-- Running the gated poll loop over a finite sequence of tick inputs,
accumulating the total number of redisplay triggers. -/
def MonitorThreadRun (cfg : Globals) : PollState → List TickInput → PollState × Nat
  | s, [] => (s, 0)
  | s, i :: rest =>
    let r1 := MonitorThreadTick cfg s i
    let r2 := MonitorThreadRun cfg r1.1 rest
    (r2.1, r1.2 + r2.2)

/-- Running the ungated poll loop over a finite sequence of tick inputs. -/
def MonitorThreadRunUngated (cfg : Globals) : PollState → List TickInput → PollState × Nat
  | s, [] => (s, 0)
  | s, i :: rest =>
    let r1 := MonitorThreadTickUngated cfg s i
    let r2 := MonitorThreadRunUngated cfg r1.1 rest
    (r2.1, r1.2 + r2.2)

/-- The sequence of observable actions Wh_ModUninit performs. -/
inductive UninitEvent where
  | setUnloading
  | stopPollLoop
  | joinThread
  | redisplayTrigger
  deriving DecidableEq, Repr

/-- The process state Wh_ModUninit touches: g_unloading, g_running,
g_forceSecondary, g_fullscreenApp. -/
structure ModState where
  unloading : Bool
  running : Bool
  forceSecondary : Bool
  fullscreenApp : Nat
  deriving DecidableEq, Repr

/-- Embedding of Wh_ModUninit (source lines 422-439): sets g_unloading, stops
the poll loop by clearing g_running, joins the monitor thread with a bounded
wait, clears g_fullscreenApp and g_forceSecondary, and calls
ApplyTaskbarSettings once. The event list records the order of these
actions. -/
def Wh_ModUninit (_s : ModState) : ModState × List UninitEvent :=
  (⟨true, false, false, 0⟩,
   [UninitEvent.setUnloading, UninitEvent.stopPollLoop, UninitEvent.joinThread,
    UninitEvent.redisplayTrigger])

/-- The global variables declared at source lines 109-118. -/
inductive GlobalVar where
  | g_initialized
  | g_unloading
  | g_forceSecondary
  | g_primaryMonitor
  | g_secondaryMonitor
  | g_taskbarHwnd
  | g_monitorThread
  | g_running
  | g_fullscreenApp
  deriving DecidableEq, Repr

/-- Which of the global variables are declared with an atomic type
(std::atomic of bool) at source lines 109-118: g_initialized, g_unloading and
g_forceSecondary are; the remaining globals, including the plain HWND
g_fullscreenApp and the plain bool g_running, are not. -/
def declaredAtomic : GlobalVar → Bool
  | GlobalVar.g_initialized => true
  | GlobalVar.g_unloading => true
  | GlobalVar.g_forceSecondary => true
  | _ => false

/-- Modelled from the words of claim C1, parametrised by which rectangle of
the monitor information plays the role of the comparison rectangle M: the
window is non-null, visible, not the desktop, shell or taskbar window, has
the WS_VISIBLE style bit, the monitor nearest its top-left corner is the
primary monitor, and its dimensions are at least the dimensions of M minus
10. -/
def SpecFullscreenWith (area : MonitorInfo → Rect) (env : WinEnv) (g : Globals)
    (w : Nat) : Bool :=
  decide (w ≠ 0) && env.isWindowVisible w && decide (w ≠ env.desktopWindow) &&
  decide (w ≠ env.shellWindow) && decide (w ≠ g.taskbarHwnd) &&
  decide (Nat.land (env.windowStyle w) WS_VISIBLE ≠ 0) &&
  match env.getWindowRect w with
  | none => false
  | some r =>
    decide (env.monitorFromPointOriginal r.left r.top MONITOR_DEFAULTTONEAREST
      = g.primaryMonitor) &&
    match env.getMonitorInfo g.primaryMonitor with
    | none => false
    | some mi =>
      decide (r.right - r.left ≥ ((area mi).right - (area mi).left) - 10) &&
      decide (r.bottom - r.top ≥ ((area mi).bottom - (area mi).top) - 10)

/-- The classifier claim C1 states: M is the work area rectangle (rcWork) of
the primary display. -/
def SpecFullscreenWorkArea (env : WinEnv) (g : Globals) (w : Nat) : Bool :=
  SpecFullscreenWith (fun mi => mi.rcWork) env g w

/-- The amended classifier condition: M is the full monitor bounds rectangle
(rcMonitor) of the primary display, as the source actually reads. -/
def SpecFullscreenMonitorBounds (env : WinEnv) (g : Globals) (w : Nat) : Bool :=
  SpecFullscreenWith (fun mi => mi.rcMonitor) env g w

/-- A monitor is counted by the enumeration callback of GetMonitorByIndex
exactly when its info query succeeds without the primary flag. -/
def isCountedNonPrimary (m : MonitorDesc) : Bool :=
  match m.getInfo with
  | none => false
  | some mi => !mi.primaryFlag

/-- A monitor carries the primary flag (false when its info query fails). -/
def primaryFlagged (m : MonitorDesc) : Bool :=
  match m.getInfo with
  | none => false
  | some mi => mi.primaryFlag

/-- The handle of the k-th entry of a monitor list, or 0 when the list is
shorter. -/
def nthHandle (monitors : List MonitorDesc) (k : Nat) : Nat :=
  match monitors.get? k with
  | none => 0
  | some m => m.handle

/-- The monitors the enumeration callback counts, in enumeration order. -/
def countedDisplays (monitors : List MonitorDesc) : List MonitorDesc :=
  monitors.filter isCountedNonPrimary

/-- The enumerated displays with the primary filtered out, in enumeration
order, as claim C5 words it. -/
def nonPrimaryDisplays (monitors : List MonitorDesc) : List MonitorDesc :=
  monitors.filter (fun m => !primaryFlagged m)

/-- Every tick of a sequence examines a foreground window different from the
one examined on the previous tick (the first relative to the given initial
lastCheckedWindow value). -/
def foregroundsChange : Nat → List TickInput → Prop
  | _, [] => True
  | prev, i :: rest => i.foreground ≠ prev ∧ foregroundsChange i.foreground rest

/-- A concrete query environment for evaluating the embedding: every window
is visible with the WS_VISIBLE style and rectangle 0,0,1920,1080; the desktop
and shell windows are 100 and 101; every point resolves to monitor 1, whose
bounds are 1920 by 1080 and whose work area is 1920 by 1040. -/
def fsEnv : WinEnv where
  isWindowVisible := fun _ => true
  desktopWindow := 100
  shellWindow := 101
  windowStyle := fun _ => WS_VISIBLE
  getWindowRect := fun _ => some ⟨0, 0, 1920, 1080⟩
  monitorFromPointOriginal := fun _ _ _ => 1
  getMonitorInfo := fun _ => some ⟨⟨0, 0, 1920, 1080⟩, ⟨0, 0, 1920, 1040⟩, false⟩

/-- The same environment with window rectangles 0,0,1920,1045: tall enough
for the work area with the 10-pixel tolerance, too short for the full monitor
bounds. -/
def workAreaEnv : WinEnv :=
  { fsEnv with getWindowRect := fun _ => some ⟨0, 0, 1920, 1045⟩ }

/-- Baseline globals: idle, not unloading, primary monitor 1, secondary
monitor 2, taskbar window 50. -/
def baseGlobals : Globals := ⟨false, false, 1, 2, 50⟩

/-- A tick whose foreground window is 2 and on which no window is alive. -/
def deadTick : TickInput := ⟨2, fun _ => false, fsEnv⟩

/-- A tick with foreground window 1, all windows alive. -/
def tickA : TickInput := ⟨1, fun _ => true, fsEnv⟩

/-- A tick with foreground window 2, all windows alive. -/
def tickB : TickInput := ⟨2, fun _ => true, fsEnv⟩

/-- A tick with foreground window 2 on which window 1 is no longer alive. -/
def tickB2 : TickInput := ⟨2, fun w => decide (w ≠ 1), fsEnv⟩

/-- Monitor A: handle 1, flagged primary. -/
def monA : MonitorDesc := ⟨1, some ⟨⟨0, 0, 1920, 1080⟩, ⟨0, 0, 1920, 1040⟩, true⟩⟩

/-- Monitor B: handle 2, not primary. -/
def monB : MonitorDesc := ⟨2, some ⟨⟨1920, 0, 3840, 1080⟩, ⟨1920, 0, 3840, 1080⟩, false⟩⟩

/-- Monitor C: handle 3, not primary. -/
def monC : MonitorDesc := ⟨3, some ⟨⟨3840, 0, 5760, 1080⟩, ⟨3840, 0, 5760, 1080⟩, false⟩⟩

/-- An initialization environment with displays A (primary), B, C, the
primary resolving at the origin, and hooking and thread creation
succeeding. -/
def initEnvABC : InitEnv := ⟨[monA, monB, monC], 1, true, true⟩

/-! Theorems settling the claims. -/

/-- Claim C1, counterexample: a visible 1920 by 1045 window at the origin of
a primary display whose bounds are 1920 by 1080 and whose work area is 1920
by 1040 is not classified fullscreen by the code (1045 is less than 1080
minus 10), yet the claim, which measures against the work area, classifies it
fullscreen (1045 is at least 1040 minus 10): the claimed iff fails. -/
theorem C1_counterexample :
    IsWindowFullscreen workAreaEnv baseGlobals 2 = false ∧
    SpecFullscreenWorkArea workAreaEnv baseGlobals 2 = true := by
  refine ⟨?_, ?_⟩ <;> decide

/-- Claim C1 as amended: the classifier returns true iff the window is
non-null, visible with the WS_VISIBLE style bit, not the desktop, shell or
taskbar window, the display nearest its top-left corner is the primary
display, and its rectangle is within 10 pixels of the FULL BOUNDS rectangle
of the primary display (rcMonitor) - not the work area rectangle the claim
names. -/
theorem C1_amended_classifier_eq (env : WinEnv) (g : Globals) (w : Nat) :
    IsWindowFullscreen env g w = SpecFullscreenMonitorBounds env g w := by
  unfold IsWindowFullscreen SpecFullscreenMonitorBounds SpecFullscreenWith
  by_cases h0 : w = 0
  · simp [h0]
  cases hv : env.isWindowVisible w
  · simp [h0, hv]
  by_cases hd : w = env.desktopWindow
  · simp [h0, hv, hd]
  by_cases hs : w = env.shellWindow
  · simp [h0, hv, hd, hs]
  by_cases ht : w = g.taskbarHwnd
  · simp [h0, hv, hd, hs, ht]
  by_cases hst : Nat.land (env.windowStyle w) WS_VISIBLE = 0
  · simp [h0, hv, hd, hs, ht, hst]
  cases hr : env.getWindowRect w with
  | none => simp [h0, hv, hd, hs, ht, hst, hr]
  | some r =>
    by_cases hm : env.monitorFromPointOriginal r.left r.top MONITOR_DEFAULTTONEAREST
        = g.primaryMonitor
    · cases hi : env.getMonitorInfo g.primaryMonitor with
      | none => simp [h0, hv, hd, hs, ht, hst, hr, hm, hi]
      | some mi => simp [h0, hv, hd, hs, ht, hst, hr, hm, hi, Bool.decide_and]
    · simp [h0, hv, hd, hs, ht, hst, hr, hm]

/-- Claim C2, counterexample: the claim states that whenever Forcing is
active and a secondary display is known, the display passed to the real
operation is the secondary display. With forcing and unloading both set,
secondary monitor 2 known, and supplied monitor 3, the hook passes 3 through
rather than the secondary monitor: the first clause of the claim fails during
shutdown. -/
theorem C2_counterexample :
    TrayUI__SetStuckMonitor_Hook fsEnv ⟨true, true, 1, 2, 50⟩ 3 = 3 ∧
    Globals.secondaryMonitor ⟨true, true, 1, 2, 50⟩ = 2 ∧ (3 : Nat) ≠ 2 := by
  refine ⟨?_, rfl, ?_⟩ <;> decide

/-- Claim C2 as amended: the hook passes the secondary display when forcing,
not unloading, and the secondary is known; the primary display when idle, not
unloading, and the primary is known; the supplied display through unchanged,
even when null, when idle and unloading; and in every remaining case
(forcing while unloading, or the respective registry entry unknown) the
supplied display with a null value replaced by the display nearest the origin
from the unintercepted query. -/
theorem C2_amended_decision_table (env : WinEnv) (g : Globals) (monitor : Nat) :
    (g.forceSecondary = true → g.unloading = false → g.secondaryMonitor ≠ 0 →
      TrayUI__SetStuckMonitor_Hook env g monitor = g.secondaryMonitor) ∧
    (g.forceSecondary = false → g.unloading = false → g.primaryMonitor ≠ 0 →
      TrayUI__SetStuckMonitor_Hook env g monitor = g.primaryMonitor) ∧
    (g.forceSecondary = false → g.unloading = true →
      TrayUI__SetStuckMonitor_Hook env g monitor = monitor) ∧
    ((g.forceSecondary = true ∧ g.unloading = true) ∨
     (g.forceSecondary = true ∧ g.unloading = false ∧ g.secondaryMonitor = 0) ∨
     (g.forceSecondary = false ∧ g.unloading = false ∧ g.primaryMonitor = 0) →
      TrayUI__SetStuckMonitor_Hook env g monitor =
        if monitor = 0 then env.monitorFromPointOriginal 0 0 MONITOR_DEFAULTTONEAREST
        else monitor) := by
  obtain ⟨fs, ul, pm, sm, tb⟩ := g
  cases fs <;> cases ul <;>
    simp only [TrayUI__SetStuckMonitor_Hook, TrayUI__SetStuckMonitor_FullTable,
      substituteMonitor] <;>
    refine ⟨?_, ?_, ?_, ?_⟩ <;>
    intro h <;> simp_all

/-- Witness for the amended claim C2: with forcing active, not unloading, and
secondary monitor 2, the hook passes monitor 2 to the real operation. -/
theorem C2_amended_witness :
    TrayUI__SetStuckMonitor_Hook fsEnv ⟨true, false, 1, 2, 50⟩ 3 = 2 :=
  (C2_amended_decision_table fsEnv ⟨true, false, 1, 2, 50⟩ 3).1 rfl rfl (by decide)

/-- Claim C3, counterexample: with tracked window 1 dead, the foreground
window 2 differing from the previously examined window and classifying as
fullscreen, the very next tick performs the Idle transition but immediately
re-enters Forcing for window 2, triggering two redisplays and ending with the
forcing flag set, not Idle with exactly one redisplay. -/
theorem C3_counterexample :
    (MonitorThreadTick baseGlobals ⟨1, true, 1⟩ deadTick).2 = 2 ∧
    (MonitorThreadTick baseGlobals ⟨1, true, 1⟩ deadTick).1.forceSecondary = true ∧
    (MonitorThreadTick baseGlobals ⟨1, true, 1⟩ deadTick).1.fullscreenApp = 2 := by
  refine ⟨?_, ?_, ?_⟩ <;> decide

/-- Claim C3 as amended: once the tracked application window is invalid, the
very next poll tick clears the tracked window and the forcing flag and
triggers exactly one redisplay, provided the same tick does not also examine
a new fullscreen foreground window (that is, the foreground window equals the
previously examined one, or does not classify as fullscreen); without that
proviso the entry transition can additionally fire in the same tick. -/
theorem C3_amended_liveness_restore (cfg : Globals) (s : PollState) (inp : TickInput)
    (happ : s.fullscreenApp ≠ 0) (hdead : inp.isWindow s.fullscreenApp = false)
    (hquiet : inp.foreground = s.lastCheckedWindow ∨
      IsWindowFullscreen inp.env (stateGlobals cfg ⟨0, false, inp.foreground⟩)
        inp.foreground = false) :
    MonitorThreadTick cfg s inp = (⟨0, false, inp.foreground⟩, 1) := by
  have hl : livenessStep s inp = (⟨0, false, s.lastCheckedWindow⟩, 1) := by
    unfold livenessStep
    rw [if_pos ⟨happ, hdead⟩]
  by_cases hfg : inp.foreground = s.lastCheckedWindow
  · simp only [MonitorThreadTick, hl, hfg]
    rw [if_neg (by simp)]
  · simp only [MonitorThreadTick, hl]
    rw [if_pos hfg]
    rcases hquiet with hq | hq
    · exact absurd hq hfg
    · simp only [entryStep]
      rw [if_neg (by simp [hq])]
      rfl

/-- Witness for the amended claim C3: with tracked window 1 dead and the
foreground window equal to the previously examined window, the tick ends Idle
with exactly one redisplay. -/
theorem C3_amended_witness :
    MonitorThreadTick baseGlobals ⟨1, true, 2⟩ deadTick = (⟨0, false, 2⟩, 1) :=
  C3_amended_liveness_restore baseGlobals ⟨1, true, 2⟩ deadTick (by decide) rfl
    (Or.inl rfl)

/-- Claim C4: for every prior state, Wh_ModUninit ends with forcing cleared
and no tracked application (the Idle state), with the poll loop stopped, and
its event sequence contains exactly one redisplay trigger, which occurs after
the poll loop has been stopped. -/
theorem C4_uninit_idle_one_redisplay (s : ModState) :
    (Wh_ModUninit s).1.forceSecondary = false ∧
    (Wh_ModUninit s).1.fullscreenApp = 0 ∧
    (Wh_ModUninit s).1.running = false ∧
    (Wh_ModUninit s).2.count UninitEvent.redisplayTrigger = 1 ∧
    UninitEvent.stopPollLoop ∈
      (Wh_ModUninit s).2.takeWhile (fun e => decide (e ≠ UninitEvent.redisplayTrigger)) := by
  unfold Wh_ModUninit
  refine ⟨rfl, rfl, rfl, ?_, ?_⟩ <;> decide

/-- The enumeration recursion of GetMonitorByIndex selects, relative to the
running count c, the (i - c)-th monitor among the counted (info-successful,
non-primary) monitors, and returns null when the count already exceeds the
requested index or the list is exhausted. -/
theorem GetMonitorByIndexAux_cons (index : Int) (m : MonitorDesc)
    (rest : List MonitorDesc) (c : Int) :
    GetMonitorByIndexAux index (m :: rest) c =
      match m.getInfo with
      | none => GetMonitorByIndexAux index rest c
      | some mi =>
        if mi.primaryFlag = true then GetMonitorByIndexAux index rest c
        else if c = index then m.handle
        else GetMonitorByIndexAux index rest (c + 1) := rfl

/-- The enumeration recursion of GetMonitorByIndex selects, relative to the
running count c, the (i - c)-th monitor among the counted (info-successful,
non-primary) monitors, and returns null when the count already exceeds the
requested index or the list is exhausted. -/
theorem GetMonitorByIndexAux_eq (ms : List MonitorDesc) :
    ∀ i c : Nat, GetMonitorByIndexAux (Int.ofNat i) ms (Int.ofNat c) =
      if c ≤ i then nthHandle (countedDisplays ms) (i - c) else 0 := by
  induction ms with
  | nil =>
    intro i c
    simp [GetMonitorByIndexAux, countedDisplays, nthHandle]
  | cons m rest ih =>
    intro i c
    rcases hinfo : m.getInfo with _ | mi
    · have hcount : isCountedNonPrimary m = false := by
        simp [isCountedNonPrimary, hinfo]
      simp only [GetMonitorByIndexAux_cons, hinfo]
      rw [ih i c]
      simp [countedDisplays, List.filter_cons, hcount]
    · cases hp : mi.primaryFlag with
      | true =>
        have hcount : isCountedNonPrimary m = false := by
          simp [isCountedNonPrimary, hinfo, hp]
        simp only [GetMonitorByIndexAux_cons, hinfo, hp, if_pos]
        rw [ih i c]
        simp [countedDisplays, List.filter_cons, hcount]
      | false =>
        have hcount : isCountedNonPrimary m = true := by
          simp [isCountedNonPrimary, hinfo, hp]
        have hfil : countedDisplays (m :: rest) = m :: countedDisplays rest := by
          simp [countedDisplays, List.filter_cons, hcount]
        simp only [GetMonitorByIndexAux_cons, hinfo, hp]
        rw [if_neg (by decide : ¬(false = true))]
        by_cases hc : c = i
        · subst hc
          rw [if_pos rfl, hfil]
          simp [nthHandle]
        · have hne : Int.ofNat c ≠ Int.ofNat i := by
            simpa using hc
          rw [if_neg hne]
          rw [show (Int.ofNat c + 1) = Int.ofNat (c + 1) by simp]
          rw [ih i (c + 1), hfil]
          by_cases hle : c ≤ i
          · rw [if_pos (by omega : c + 1 ≤ i), if_pos hle]
            have hsub : i - c = (i - (c + 1)) + 1 := by omega
            rw [hsub]
            simp [nthHandle]
          · rw [if_neg (by omega : ¬c + 1 ≤ i), if_neg hle]

/-- Under the assumption that every info query of the enumeration succeeds,
the counted monitors are exactly the enumerated displays with the primary
filtered out. -/
theorem nonPrimary_eq_counted (ms : List MonitorDesc)
    (hall : ∀ m ∈ ms, m.getInfo.isSome = true) :
    nonPrimaryDisplays ms = countedDisplays ms := by
  induction ms with
  | nil => rfl
  | cons m rest ih =>
    have hm : m.getInfo.isSome = true := hall m (List.mem_cons_self m rest)
    have ih2 := ih (fun x hx => hall x (List.mem_cons_of_mem m hx))
    rcases hsome : m.getInfo with _ | mi
    · rw [hsome] at hm
      exact absurd hm (by decide)
    · have heq : (!primaryFlagged m) = isCountedNonPrimary m := by
        simp [primaryFlagged, isCountedNonPrimary, hsome]
      simp only [nonPrimaryDisplays, countedDisplays, List.filter_cons] at ih2 ⊢
      rw [heq, ih2]

/-- Claim C5: with every info query succeeding and a configured index n of at
least 1, the secondary resolution of the monitor registry returns the
(n-1)-th display, 0-based, among the enumerated displays with the primary
filtered out; and when fewer than n such displays exist it returns null and
Wh_ModInit fails without starting the monitor thread. -/
theorem C5_secondary_resolution (e : InitEnv) (n : Int)
    (hall : ∀ m ∈ e.monitors, m.getInfo.isSome = true) (hn : 1 ≤ n) :
    GetMonitorByIndex e.monitors (n - 1) =
      nthHandle (nonPrimaryDisplays e.monitors) (n - 1).toNat ∧
    ((nonPrimaryDisplays e.monitors).length ≤ (n - 1).toNat →
      GetMonitorByIndex e.monitors (n - 1) = 0 ∧
      (Wh_ModInit e n).success = false ∧ (Wh_ModInit e n).threadStarted = false) := by
  have h0 : (0 : Int) ≤ n - 1 := by omega
  have hrepr : n - 1 = Int.ofNat (n - 1).toNat := (Int.toNat_of_nonneg h0).symm
  have key : GetMonitorByIndex e.monitors (n - 1) =
      nthHandle (countedDisplays e.monitors) (n - 1).toNat := by
    rw [GetMonitorByIndex, hrepr]
    have haux := GetMonitorByIndexAux_eq e.monitors (n - 1).toNat 0
    simpa using haux
  have hfilters := nonPrimary_eq_counted e.monitors hall
  constructor
  · rw [key, hfilters]
  · intro hlen
    have hnone : (nonPrimaryDisplays e.monitors).get? (n - 1).toNat = none :=
      List.get?_eq_none.mpr hlen
    have hzero : GetMonitorByIndex e.monitors (n - 1) = 0 := by
      rw [key, ← hfilters]
      unfold nthHandle
      rw [hnone]
    refine ⟨hzero, ?_, ?_⟩ <;> simp [Wh_ModInit, RefreshMonitors, hzero]

/-- Witness for claim C5: with displays A (primary, handle 1), B (handle 2)
and C (handle 3), index 1 resolves the secondary to B and index 2 to C, while
index 5 resolves to null and initialization fails without starting the
monitor thread. -/
theorem C5_secondary_resolution_witness :
    GetMonitorByIndex initEnvABC.monitors 0 = 2 ∧
    GetMonitorByIndex initEnvABC.monitors 1 = 3 ∧
    GetMonitorByIndex initEnvABC.monitors 4 = 0 ∧
    (Wh_ModInit initEnvABC 5).success = false ∧
    (Wh_ModInit initEnvABC 5).threadStarted = false := by
  have h := C5_secondary_resolution initEnvABC 5 (by decide) (by decide)
  have h2 := h.2 (by decide)
  exact ⟨by decide, by decide, h2.1, h2.2.1, h2.2.2⟩

theorem livenessStep_lastChecked (s : PollState) (inp : TickInput) :
    (livenessStep s inp).1.lastCheckedWindow = s.lastCheckedWindow := by
  unfold livenessStep
  split <;> rfl

theorem MonitorThreadTickUngated_lastChecked (cfg : Globals) (s : PollState)
    (inp : TickInput) :
    (MonitorThreadTickUngated cfg s inp).1.lastCheckedWindow = inp.foreground := by
  simp only [MonitorThreadTickUngated, entryStep]
  split <;> rfl

theorem MonitorThreadTick_eq_ungated (cfg : Globals) (s : PollState) (inp : TickInput)
    (h : inp.foreground ≠ s.lastCheckedWindow) :
    MonitorThreadTick cfg s inp = MonitorThreadTickUngated cfg s inp := by
  simp only [MonitorThreadTick, MonitorThreadTickUngated]
  rw [if_pos (show inp.foreground ≠ (livenessStep s inp).1.lastCheckedWindow by
    rw [livenessStep_lastChecked]; exact h)]

/-- Claim C6, counterexample: window 1 goes fullscreen on the first tick and
is tracked; window 2, also fullscreen, is the foreground on the second and
third ticks; window 1 dies before the third tick. The gated loop resets to
Idle and skips re-examining window 2 (unchanged foreground), ending Idle with
two redisplays; the ungated loop re-examines window 2 on the third tick and
re-enters Forcing, ending with the forcing flag set and three redisplays: the
gate is not a pure optimization. -/
theorem C6_counterexample :
    (MonitorThreadRun baseGlobals ⟨0, false, 0⟩ [tickA, tickB, tickB2]).1.forceSecondary
        = false ∧
    (MonitorThreadRunUngated baseGlobals ⟨0, false, 0⟩ [tickA, tickB, tickB2]).1.forceSecondary
        = true ∧
    (MonitorThreadRun baseGlobals ⟨0, false, 0⟩ [tickA, tickB, tickB2]).2 = 2 ∧
    (MonitorThreadRunUngated baseGlobals ⟨0, false, 0⟩ [tickA, tickB, tickB2]).2 = 3 := by
  refine ⟨?_, ?_, ?_, ?_⟩ <;> decide

/-- Claim C6 as amended: the change-detection gate preserves end state and
redisplay count on every input sequence in which each tick examines a
foreground window different from the one examined on the previous tick (so
the gate never actually skips); in general the gated and ungated loops can
diverge when the tracked application dies while an unchanged fullscreen
foreground window is present. -/
theorem C6_amended_gate_equiv (cfg : Globals) :
    ∀ (inps : List TickInput) (s : PollState),
      foregroundsChange s.lastCheckedWindow inps →
      MonitorThreadRun cfg s inps = MonitorThreadRunUngated cfg s inps := by
  intro inps
  induction inps with
  | nil =>
    intro s _
    rfl
  | cons i rest ih =>
    intro s h
    obtain ⟨h1, h2⟩ := h
    simp only [MonitorThreadRun, MonitorThreadRunUngated]
    rw [MonitorThreadTick_eq_ungated cfg s i h1]
    rw [ih (MonitorThreadTickUngated cfg s i).1
      (by rw [MonitorThreadTickUngated_lastChecked]; exact h2)]

/-- Witness for the amended claim C6: on a two-tick sequence with changing
foreground windows the gated and ungated loops agree exactly. -/
theorem C6_amended_witness :
    MonitorThreadRun baseGlobals ⟨0, false, 0⟩ [tickA, tickB] =
      MonitorThreadRunUngated baseGlobals ⟨0, false, 0⟩ [tickA, tickB] :=
  C6_amended_gate_equiv baseGlobals [tickA, tickB] ⟨0, false, 0⟩
    (by refine ⟨?_, ?_, trivial⟩ <;> decide)

/-- Claim C7, counterexample: with forcing off, unloading set, primary
monitor 1 known, and supplied monitor 3, the hook with the short-circuit
passes 3 while the full decision table passes 1: the short-circuit is
observable. -/
theorem C7_counterexample :
    TrayUI__SetStuckMonitor_Hook fsEnv ⟨false, true, 1, 2, 50⟩ 3 = 3 ∧
    TrayUI__SetStuckMonitor_FullTable fsEnv ⟨false, true, 1, 2, 50⟩ 3 = 1 ∧
    (3 : Nat) ≠ 1 := by
  refine ⟨?_, ?_, ?_⟩ <;> decide

/-- Claim C7 as amended: the short-circuit is behaviour-preserving in every
state except possibly when forcing is off while unloading: whenever forcing
is active or the system is not unloading, the hook with the short-circuit and
the full decision table pass the same display identity to the real
operation. -/
theorem C7_amended_fastpath_equiv (env : WinEnv) (g : Globals) (monitor : Nat)
    (h : g.forceSecondary = true ∨ g.unloading = false) :
    TrayUI__SetStuckMonitor_Hook env g monitor =
      TrayUI__SetStuckMonitor_FullTable env g monitor := by
  unfold TrayUI__SetStuckMonitor_Hook
  rw [if_neg]
  rintro ⟨h1, h2⟩
  rcases h with h | h
  · rw [h] at h1; exact absurd h1 (by decide)
  · rw [h] at h2; exact absurd h2 (by decide)

/-- Witness for the amended claim C7: in the idle, not unloading state the
two variants agree on a concrete input. -/
theorem C7_amended_witness :
    TrayUI__SetStuckMonitor_Hook fsEnv baseGlobals 3 =
      TrayUI__SetStuckMonitor_FullTable fsEnv baseGlobals 3 :=
  C7_amended_fastpath_equiv fsEnv baseGlobals 3 (Or.inr rfl)

/-- Claim C8, counterexample: with forcing off and unloading set, a null
supplied display is passed straight to the real operation by the fast path,
even though the unintercepted nearest-origin query would have returned
monitor 1: the real operation can receive a null display identity. -/
theorem C8_counterexample :
    fsEnv.monitorFromPointOriginal 0 0 MONITOR_DEFAULTTONEAREST ≠ 0 ∧
    TrayUI__SetStuckMonitor_Hook fsEnv ⟨false, true, 1, 2, 50⟩ 0 = 0 := by
  refine ⟨?_, ?_⟩ <;> decide

/-- Claim C8 as amended: on every path other than the fast path (that is,
whenever forcing is active or the system is not unloading), a null
substituted or supplied display is replaced by the display nearest the origin
obtained from the unintercepted query before delegating, so the real
operation receives a non-null display whenever that query returns one. -/
theorem C8_amended_null_fallback (env : WinEnv) (g : Globals) (monitor : Nat)
    (h : g.forceSecondary = true ∨ g.unloading = false)
    (hnear : env.monitorFromPointOriginal 0 0 MONITOR_DEFAULTTONEAREST ≠ 0) :
    TrayUI__SetStuckMonitor_Hook env g monitor ≠ 0 := by
  have hfast : ¬(g.forceSecondary = false ∧ g.unloading = true) := by
    rintro ⟨h1, h2⟩
    rcases h with h | h
    · rw [h] at h1; exact absurd h1 (by decide)
    · rw [h] at h2; exact absurd h2 (by decide)
  unfold TrayUI__SetStuckMonitor_Hook
  rw [if_neg hfast]
  unfold TrayUI__SetStuckMonitor_FullTable
  split
  · exact hnear
  · assumption

/-- Witness for the amended claim C8: with forcing active, not unloading, and
a null supplied display, the real operation receives a non-null display. -/
theorem C8_amended_witness :
    TrayUI__SetStuckMonitor_Hook fsEnv ⟨true, false, 1, 2, 50⟩ 0 ≠ 0 :=
  C8_amended_null_fallback fsEnv ⟨true, false, 1, 2, 50⟩ 0 (Or.inl rfl) (by decide)

/-- Claim C9, counterexample: the claim states that the tracked application
window is represented as an atomically readable and writable value; in the
source g_fullscreenApp is declared as a plain HWND with no atomic wrapper. -/
theorem C9_counterexample : declaredAtomic GlobalVar.g_fullscreenApp = false := rfl

/-- Claim C9 as amended: the forcing flag, the shutdown flag and the
initialization flag are declared as atomic booleans, while the tracked
application window and the running flag are ordinary non-atomic variables, so
the stated tearing-freedom argument is established by the representation only
for the flags. -/
theorem C9_amended_atomicity :
    declaredAtomic GlobalVar.g_forceSecondary = true ∧
    declaredAtomic GlobalVar.g_unloading = true ∧
    declaredAtomic GlobalVar.g_initialized = true ∧
    declaredAtomic GlobalVar.g_fullscreenApp = false ∧
    declaredAtomic GlobalVar.g_running = false := by
  refine ⟨rfl, rfl, rfl, rfl, rfl⟩

/-- Claim C10: the fullscreen classifier reads the monitor for the top-left
corner of the window through the unintercepted query, so for every fixed set
of query results its verdict is the same whether the forcing flag is set or
not, for every window including one whose top-left is the origin. -/
theorem C10_forcing_independent (env : WinEnv) (g : Globals) (w : Nat) (b1 b2 : Bool) :
    IsWindowFullscreen env { g with forceSecondary := b1 } w =
      IsWindowFullscreen env { g with forceSecondary := b2 } w := by
  cases g
  rfl

end TaskbarAutoFullscreen
